import Mathlib

/-!
Shallow embedding of the `watchdog` agent core
(src/agent/src/watchdog_agent/agent.py, monitors.py, main.py).

External collaborators (the Anthropic client, httpx, BeautifulSoup,
hashlib.md5, json.loads, datetime.now, the host power/idle signals) are
modelled as parameters: the embedding quantifies over their outputs, and
each theorem's hypotheses pin down exactly the behaviour the claim
assumes of them.  Everything the repository's own code does — gathering
order and truncation, the brace-regex JSON extraction, the fallback and
exception paths, the cache read-modify-write, the scheduler's due test
and the power/idle gate — is translated directly from the source.
-/

/-- Values of a parsed JSON document, as produced by Python's
`json.loads` on the flat brace-delimited candidates the agent extracts.
Numbers are modelled exactly (as rationals); JSON arrays and any other
value shape the claims never touch are carried opaquely by `other`. -/
inductive JValue where
  | null : JValue
  | bool : Bool → JValue
  | num : ℚ → JValue
  | str : String → JValue
  | other : String → JValue
deriving DecidableEq, Repr

/-- A parsed top-level JSON object: the key/value pairs of the Python
dict returned by `json.loads` (duplicate keys already collapsed by the
parser, as `json.loads` keeps the last occurrence). -/
abbrev Jobj := List (String × JValue)

deriving instance DecidableEq for Except

/-- Python `dict.get(key, default)` on a parsed JSON object. -/
def jget (rd : Jobj) (k : String) (d : JValue) : JValue :=
  match rd.lookup k with
  | some v => v
  | none => d

/-- One search hit as assembled by `WatchdogAgent._search_web`
(agent.py lines 85-127): a `{title, url, snippet}` dict. -/
structure SearchResult where
  title : String
  url : String
  snippet : String
deriving DecidableEq, Repr

/-- The `WatchTopic` dataclass (agent.py lines 14-23).  `last_checked`
is kept as its ISO string; neither it nor `last_content_hash` is read by
the core logic. -/
structure WatchTopic where
  name : String
  description : String
  search_queries : List String
  urls_to_check : List String := []
  check_interval_hours : Nat := 24
  last_checked : Option String := none
  last_content_hash : Option String := none
deriving DecidableEq, Repr

/-- The `UpdateResult` dataclass (agent.py lines 26-33).  Python is
dynamically typed: the fields hold whatever JSON value `dict.get`
returned, so they are `JValue`-typed here. -/
structure UpdateResult where
  topic_name : String
  has_update : JValue
  summary : JValue
  source_url : JValue := JValue.null
  confidence : JValue := JValue.num 0
deriving DecidableEq, Repr

/-- The per-topic cache file's JSON dict, restricted to the three keys
the agent reads and writes (`content_hash`, `last_checked`,
`last_summary`); a missing key is `none`. -/
structure CacheRecord where
  content_hash : Option String := none
  last_checked : Option String := none
  last_summary : Option JValue := none
deriving DecidableEq, Repr

/-- The cache directory: one optional record per file name (`none`
models a missing or unreadable file, which `_load_topic_cache` treats as
an empty dict). -/
def CacheStore := String → Option CacheRecord

/-- Python's `str.isalnum` on one character (letters or digits; the
claims only exercise ASCII names, where this coincides with Python's
Unicode-aware test). -/
def isAlnumChar (c : Char) : Bool :=
  c.isAlpha || c.isDigit

/-- The file-name sanitisation of `_get_cache_path` (agent.py line 50):
every non-alphanumeric character of the topic name becomes an
underscore. -/
def sanitizeName (name : String) : String :=
  String.mk (name.data.map (fun c => if isAlnumChar c then c else '_'))

/-- `_load_topic_cache` (agent.py lines 53-60): read the record at the
sanitised name; a missing or corrupt file yields the empty dict. -/
def loadTopicCache (store : CacheStore) (topicName : String) : CacheRecord :=
  match store (sanitizeName topicName) with
  | some rec => rec
  | none => {}

/-- `_save_topic_cache` (agent.py lines 62-64): write the record at the
sanitised name. -/
def saveTopicCache (store : CacheStore) (topicName : String) (rec : CacheRecord) :
    CacheStore :=
  fun k => if k = sanitizeName topicName then some rec else store k

/-- The outputs of every external collaborator one `check_topic` call
consumes: the web search and URL fetch (post-extraction, already
truncated to 15000 characters by `_fetch_url_content`), the md5 hex
digest, the Claude API call (`Except.error` models a raised exception,
carrying its message), `json.loads` on the extracted candidate
(`Except.error` models a raised `JSONDecodeError`), and
`datetime.now().isoformat()`. -/
structure CheckEnv where
  searchWeb : String → List SearchResult
  fetchUrl : String → Option String
  md5hex : String → String
  oracle : Except String String
  jsonLoads : String → Except String Jobj
  now : String

/-- The gathering phase of `check_topic` (agent.py lines 134-153): up to
3 search queries, each suffixed with " 2024 2025", up to 3 results per
query formatted as a labelled fragment; then up to 3 direct URLs, each
fetched fragment truncated to 3000 characters and skipped when the fetch
failed or returned an empty string (Python truthiness). -/
def gatherInfo (env : CheckEnv) (topic : WatchTopic) : List String :=
  ((topic.search_queries.take 3).flatMap (fun query =>
    ((env.searchWeb (query ++ " 2024 2025")).take 3).map (fun r =>
      "Search result for '" ++ query ++ "':\n" ++
      "Title: " ++ r.title ++ "\n" ++
      "URL: " ++ r.url ++ "\n" ++
      "Snippet: " ++ r.snippet ++ "\n")))
  ++ ((topic.urls_to_check.take 3).filterMap (fun url =>
    match env.fetchUrl url with
    | some content =>
        if content = "" then none
        else some ("Content from " ++ url ++ ":\n" ++
          String.mk (content.data.take 3000) ++ "\n")
    | none => none))

/-- The search for the first brace-delimited candidate, the semantics of
`re.search(r'\x7b[^\x7b\x7d]*\x7d', response_text, re.DOTALL)`
(agent.py line 202): the leftmost opening brace whose next brace is a
closing one, together with the characters between them.  `acc` holds the
characters (reversed) since the most recent still-open brace. -/
def findCand (acc : Option (List Char)) : List Char → Option (List Char)
  | [] => none
  | c :: rest =>
    if c = '\x7b' then findCand (some []) rest
    else if c = '\x7d' then
      match acc with
      | some inner => some ('\x7b' :: (inner.reverse ++ ['\x7d']))
      | none => findCand none rest
    else
      match acc with
      | some inner => findCand (some (c :: inner)) rest
      | none => findCand none rest

/-- The matched text of the brace regex on the oracle's response, when a
match exists. -/
def findCandidateStr (s : String) : Option String :=
  (findCand none s.data).map fun l => String.mk l

/-- The hardcoded fallback dict built when no brace-delimited candidate
is found in the response (agent.py lines 206-211). -/
def fallbackData : Jobj :=
  [("has_significant_update", JValue.bool false),
   ("summary", JValue.str "Could not parse response"),
   ("confidence", JValue.num 0),
   ("source_url", JValue.null)]

/-- The body of `check_topic`'s try block up to `result_data`
(agent.py lines 191-211): the API call may raise; if its response text
has a brace-delimited candidate that candidate goes to `json.loads`
(whose `JSONDecodeError` also propagates out of the try block);
otherwise the fallback dict is used. -/
def obtainResultData (env : CheckEnv) : Except String Jobj :=
  match env.oracle with
  | .error e => .error e
  | .ok responseText =>
    match findCandidateStr responseText with
    | some s => env.jsonLoads s
    | none => .ok fallbackData

/-- `WatchdogAgent.check_topic` (agent.py lines 129-233), returning the
`UpdateResult` together with the cache directory after the call.
Empty gather returns early without touching the oracle or the cache; an
exception inside the try block yields the error verdict with the cache
untouched; otherwise the loaded cache dict gets `content_hash`,
`last_checked` and `last_summary` overwritten, is saved, and the verdict
is built from `result_data` with `dict.get` defaults. -/
def check_topic (env : CheckEnv) (topic : WatchTopic) (store : CacheStore) :
    UpdateResult × CacheStore :=
  let cache := loadTopicCache store topic.name
  let gathered := gatherInfo env topic
  if gathered = [] then
    ({ topic_name := topic.name,
       has_update := JValue.bool false,
       summary := JValue.str "Could not gather any information",
       source_url := JValue.null,
       confidence := JValue.num 0 }, store)
  else
    let content_hash := env.md5hex (String.intercalate "\n" gathered)
    match obtainResultData env with
    | .error e =>
        ({ topic_name := topic.name,
           has_update := JValue.bool false,
           summary := JValue.str ("Error checking topic: " ++ e),
           source_url := JValue.null,
           confidence := JValue.num 0 }, store)
    | .ok result_data =>
        let cache2 : CacheRecord :=
          { cache with
            content_hash := some content_hash,
            last_checked := some env.now,
            last_summary := some (jget result_data "summary" (JValue.str "")) }
        let store2 := saveTopicCache store topic.name cache2
        ({ topic_name := topic.name,
           has_update := jget result_data "has_significant_update" (JValue.bool false),
           summary := jget result_data "summary" (JValue.str "No summary"),
           source_url := jget result_data "source_url" JValue.null,
           confidence := jget result_data "confidence" (JValue.num 0) }, store2)

/-- `is_on_ac_power` (monitors.py lines 7-21) over the host signal: one
entry per `AC*`/`ACAD*` power-supply path, `some s` being the text of a
readable `online` file and `none` a missing or unreadable one (skipped
by the loop).  The first readable file decides; with none readable the
fallback assumes AC. -/
def is_on_ac_power : List (Option String) → Bool
  | [] => true
  | none :: rest => is_on_ac_power rest
  | some s :: _ => s.trim = "1"

/-- The host idle signals `get_idle_time_ms` consults: the qdbus session
idle time (an integer, in seconds) and the xprintidle output (an
integer, in milliseconds); `none` models any failure of that probe
(timeout, missing binary, unparseable output, nonzero exit). -/
structure IdleEnv where
  qdbus : Option Int
  xprintidle : Option Int
deriving DecidableEq, Repr

/-- `get_idle_time_ms` (monitors.py lines 24-53): qdbus first (seconds,
converted to ms), then xprintidle, and 0 (assume active) when neither
signal is available. -/
def get_idle_time_ms (env : IdleEnv) : Int :=
  match env.qdbus with
  | some s => s * 1000
  | none =>
    match env.xprintidle with
    | some ms => ms
    | none => 0

/-- `is_user_active` (monitors.py lines 56-60): active iff the idle time
is strictly below the threshold converted to milliseconds. -/
def is_user_active (env : IdleEnv) (idle_threshold_minutes : Int) : Bool :=
  get_idle_time_ms env < idle_threshold_minutes * 60 * 1000

/-- `should_run_check` (monitors.py lines 63-76) over the host signals:
battery veto first (only when AC is required), then the idle veto, then
permission. -/
def should_run_check (supplies : List (Option String)) (idle : IdleEnv)
    (require_ac : Bool) (idle_threshold_minutes : Int) : Bool × String :=
  if require_ac && !is_on_ac_power supplies then
    (false, "On battery power")
  else if !is_user_active idle idle_threshold_minutes then
    (false, "User idle for >" ++ toString idle_threshold_minutes ++ " minutes")
  else
    (true, "OK")

/-- The per-topic interval of the daemon loop (main.py lines 92-96):
`max(timedelta(hours=check_interval_hours),
timedelta(minutes=min_check_interval_minutes))`, expressed in minutes. -/
def effectiveInterval (check_interval_hours min_check_interval_minutes : Nat) : ℚ :=
  max ((check_interval_hours : ℚ) * 60) (min_check_interval_minutes : ℚ)

/-- The due test of the daemon loop (main.py lines 91-98): a topic is
checked when it has no recorded last check or when `now - last_check`
has reached the effective interval.  Times are in minutes (timedeltas
compare exactly, so rationals model them faithfully). -/
def isDue (now : ℚ) (lastCheck : Option ℚ)
    (check_interval_hours min_check_interval_minutes : Nat) : Bool :=
  match lastCheck with
  | none => true
  | some t => decide (effectiveInterval check_interval_hours min_check_interval_minutes ≤ now - t)

/-- The due test applied to a topic through the daemon's `last_checks`
dict (main.py line 91): the lookup is by topic name. -/
def isDueTopic (now : ℚ) (last_checks : String → Option ℚ) (topic : WatchTopic)
    (min_check_interval_minutes : Nat) : Bool :=
  isDue now (last_checks topic.name) topic.check_interval_hours min_check_interval_minutes

/-- Restatement of the scheduler sentence of the spec, in its own words:
due exactly when never checked, or elapsed time at least the maximum of
the topic interval and the global floor. -/
def dueSpec (now : ℚ) (last_checks : String → Option ℚ) (topic : WatchTopic)
    (min_check_interval_minutes : Nat) : Prop :=
  last_checks topic.name = none ∨
    ∃ t, last_checks topic.name = some t ∧
      now - t ≥ max ((topic.check_interval_hours : ℚ) * 60) (min_check_interval_minutes : ℚ)

/-- Pointwise comparison of two names: equal length, and at each
position either the same character or two non-alphanumeric characters
(the hypothesis of the cache-key collision claim). -/
def differOnlyNonAlnum : List Char → List Char → Bool
  | [], [] => true
  | c :: cs, d :: ds =>
      (c = d || (!isAlnumChar c && !isAlnumChar d)) && differOnlyNonAlnum cs ds
  | _, _ => false

/-- The empty cache directory: no topic has a cache file yet. -/
def emptyStore : CacheStore := fun _ => none

/-- A concrete topic used to exercise `check_topic`: one direct URL, no
search queries. -/
def fedoraTopic : WatchTopic :=
  { name := "Fedora Release",
    description := "Fedora Linux release schedule",
    search_queries := [],
    urls_to_check := ["https://fedoramagazine.org/"] }

/-- The brace-delimited JSON object inside `fedoraResp`. -/
def fedoraCand : String :=
  "\x7b\"has_significant_update\": true, \"summary\": \"Fedora 44 beta announced\", \"confidence\": 1, \"source_url\": \"https://fedoramagazine.org/\"\x7d"

/-- A concrete oracle response embedding one JSON object in prose. -/
def fedoraResp : String := "Here is my verdict: " ++ fedoraCand ++ " - done."

/-- The dict `json.loads` produces on `fedoraCand`. -/
def fedoraKvs : Jobj :=
  [("has_significant_update", JValue.bool true),
   ("summary", JValue.str "Fedora 44 beta announced"),
   ("confidence", JValue.num 1),
   ("source_url", JValue.str "https://fedoramagazine.org/")]

/-- A concrete environment whose oracle answers `fedoraResp` and whose
`json.loads` parses `fedoraCand` to `fedoraKvs` (anything else is a
`JSONDecodeError`). -/
def fedoraEnv : CheckEnv :=
  { searchWeb := fun _ => [],
    fetchUrl := fun _ => some "Fedora 44 beta announced, schedule slipped to March",
    md5hex := fun _ => "d41d8cd98f00b204e9800998ecf8427e",
    oracle := .ok fedoraResp,
    jsonLoads := fun s =>
      if s = fedoraCand then .ok fedoraKvs
      else .error "Expecting value: line 1 column 1 (char 0)",
    now := "2026-10-12T00:00:00" }

/-- C1: on a successful parse, the verdict's fields are the mapped
fields of the extracted JSON object, with `has_significant_update`
defaulting to false, `summary` to "No summary", `confidence` to 0.0 and
`source_url` to null when the key is absent. -/
theorem check_topic_parse_success_mapping (env : CheckEnv) (topic : WatchTopic)
    (store : CacheStore) (txt s : String) (kvs : Jobj)
    (hg : gatherInfo env topic ≠ [])
    (ho : env.oracle = .ok txt)
    (hc : findCandidateStr txt = some s)
    (hj : env.jsonLoads s = .ok kvs) :
    (check_topic env topic store).1.has_update =
        jget kvs "has_significant_update" (JValue.bool false) ∧
      (check_topic env topic store).1.summary =
        jget kvs "summary" (JValue.str "No summary") ∧
      (check_topic env topic store).1.confidence =
        jget kvs "confidence" (JValue.num 0) ∧
      (check_topic env topic store).1.source_url =
        jget kvs "source_url" JValue.null := by
  simp [check_topic, obtainResultData, hg, ho, hc, hj, Except.bind]

/-- Witness for C1 at the concrete `fedoraEnv`. -/
theorem check_topic_parse_success_mapping_witness :
    (check_topic fedoraEnv fedoraTopic emptyStore).1.has_update =
        jget fedoraKvs "has_significant_update" (JValue.bool false) ∧
      (check_topic fedoraEnv fedoraTopic emptyStore).1.summary =
        jget fedoraKvs "summary" (JValue.str "No summary") ∧
      (check_topic fedoraEnv fedoraTopic emptyStore).1.confidence =
        jget fedoraKvs "confidence" (JValue.num 0) ∧
      (check_topic fedoraEnv fedoraTopic emptyStore).1.source_url =
        jget fedoraKvs "source_url" JValue.null :=
  check_topic_parse_success_mapping fedoraEnv fedoraTopic emptyStore
    fedoraResp fedoraCand fedoraKvs (by decide) rfl (by decide) (by decide)

/-- A plain topic with one URL to fetch and no search queries. -/
def plainTopic : WatchTopic :=
  { name := "Topic",
    description := "a topic",
    search_queries := [],
    urls_to_check := ["https://example.org/page"] }

/-- An environment whose oracle answers with a brace-delimited candidate
that is not valid JSON, so `json.loads` raises on it. -/
def parseFailEnv : CheckEnv :=
  { searchWeb := fun _ => [],
    fetchUrl := fun _ => some "page text",
    md5hex := fun _ => "abc123",
    oracle := .ok "\x7bnot json\x7d",
    jsonLoads := fun _ =>
      .error "Expecting property name enclosed in double quotes: line 1 column 2 (char 1)",
    now := "2026-10-12T01:00:00" }

/-- An environment whose oracle answers prose with no brace anywhere. -/
def noJsonEnv : CheckEnv :=
  { searchWeb := fun _ => [],
    fetchUrl := fun _ => some "page text",
    md5hex := fun _ => "abc123",
    oracle := .ok "I cannot determine a verdict.",
    jsonLoads := fun _ => .error "Expecting value: line 1 column 1 (char 0)",
    now := "2026-10-12T01:00:00" }

/-- An environment whose oracle call raises (network error). -/
def oracleErrEnv : CheckEnv :=
  { searchWeb := fun _ => [],
    fetchUrl := fun _ => some "page text",
    md5hex := fun _ => "abc123",
    oracle := .error "Connection error",
    jsonLoads := fun _ => .error "Expecting value: line 1 column 1 (char 0)",
    now := "2026-10-12T01:00:00" }

/-- C2 counterexample: the response `"\x7bnot json\x7d"` does contain a
brace-delimited candidate, that candidate fails to parse, and
`check_topic` then returns the exception-path verdict, not the fixed
fallback verdict the claim promises. -/
theorem check_topic_parse_fail_counterexample :
    findCandidateStr "\x7bnot json\x7d" = some "\x7bnot json\x7d" ∧
      (check_topic parseFailEnv plainTopic emptyStore).1 =
        { topic_name := "Topic",
          has_update := JValue.bool false,
          summary := JValue.str
            "Error checking topic: Expecting property name enclosed in double quotes: line 1 column 2 (char 1)",
          source_url := JValue.null,
          confidence := JValue.num 0 } ∧
      (check_topic parseFailEnv plainTopic emptyStore).1.summary ≠
        JValue.str "Could not parse response" := by
  decide

/-- C2 amended: the fixed fallback verdict is returned exactly when NO
brace-delimited candidate is found in the response; when a candidate is
found but fails to parse as JSON, the raised decode error escapes to the
exception handler, which returns the error verdict instead.  Neither
path retries within the check. -/
theorem check_topic_no_parse_paths (env : CheckEnv) (topic : WatchTopic)
    (store : CacheStore) (txt : String)
    (hg : gatherInfo env topic ≠ [])
    (ho : env.oracle = .ok txt) :
    (findCandidateStr txt = none →
      (check_topic env topic store).1 =
        { topic_name := topic.name,
          has_update := JValue.bool false,
          summary := JValue.str "Could not parse response",
          source_url := JValue.null,
          confidence := JValue.num 0 }) ∧
    (∀ s e, findCandidateStr txt = some s → env.jsonLoads s = .error e →
      (check_topic env topic store).1 =
        { topic_name := topic.name,
          has_update := JValue.bool false,
          summary := JValue.str ("Error checking topic: " ++ e),
          source_url := JValue.null,
          confidence := JValue.num 0 }) := by
  constructor
  · intro hn
    simp [check_topic, obtainResultData, hg, ho, hn]
    refine ⟨by decide, by decide, by decide, by decide⟩
  · intro s e hs he
    simp [check_topic, obtainResultData, hg, ho, hs, he]

/-- Witness for C2's amended theorem: the no-candidate response of
`noJsonEnv` produces the fixed fallback verdict. -/
theorem check_topic_no_parse_paths_witness :
    (check_topic noJsonEnv plainTopic emptyStore).1 =
      { topic_name := plainTopic.name,
        has_update := JValue.bool false,
        summary := JValue.str "Could not parse response",
        source_url := JValue.null,
        confidence := JValue.num 0 } :=
  (check_topic_no_parse_paths noJsonEnv plainTopic emptyStore
    "I cannot determine a verdict." (by decide) rfl).1 (by decide)

/-- C3: when the oracle call itself raises, `check_topic` returns the
error verdict built from the exception's message and leaves the whole
cache directory — hence the topic's record — untouched. -/
theorem check_topic_oracle_error (env : CheckEnv) (topic : WatchTopic)
    (store : CacheStore) (e : String)
    (hg : gatherInfo env topic ≠ [])
    (ho : env.oracle = .error e) :
    (check_topic env topic store).1 =
      { topic_name := topic.name,
        has_update := JValue.bool false,
        summary := JValue.str ("Error checking topic: " ++ e),
        source_url := JValue.null,
        confidence := JValue.num 0 } ∧
    (check_topic env topic store).2 = store := by
  simp [check_topic, obtainResultData, hg, ho]

/-- Witness for C3 at a concrete failing oracle. -/
theorem check_topic_oracle_error_witness :
    (check_topic oracleErrEnv plainTopic emptyStore).1 =
      { topic_name := plainTopic.name,
        has_update := JValue.bool false,
        summary := JValue.str ("Error checking topic: " ++ "Connection error"),
        source_url := JValue.null,
        confidence := JValue.num 0 } ∧
    (check_topic oracleErrEnv plainTopic emptyStore).2 = emptyStore :=
  check_topic_oracle_error oracleErrEnv plainTopic emptyStore
    "Connection error" (by decide) rfl

/-- A cache directory holding a prior record for `plainTopic`. -/
def priorStore : CacheStore :=
  fun k =>
    if k = "Topic" then
      some { content_hash := some "oldhash",
             last_checked := some "2026-10-11T00:00:00",
             last_summary := some (JValue.str "Old summary") }
    else none

/-- C4 counterexample: after a check that ends in the parse fallback
(no candidate in the response), the topic's cache record has not only a
new fingerprint but also a new `last_checked` and a `last_summary`
overwritten with the fallback verdict's text, clobbering the stored
"Old summary". -/
theorem check_topic_parse_fallback_cache_counterexample :
    priorStore (sanitizeName "Topic") =
      some { content_hash := some "oldhash",
             last_checked := some "2026-10-11T00:00:00",
             last_summary := some (JValue.str "Old summary") } ∧
    findCandidateStr "I cannot determine a verdict." = none ∧
    (check_topic noJsonEnv plainTopic priorStore).2 (sanitizeName "Topic") =
      some { content_hash := some "abc123",
             last_checked := some "2026-10-12T01:00:00",
             last_summary := some (JValue.str "Could not parse response") } := by
  decide

/-- C4 amended: on the parse-fallback path the topic's cache record is
saved with the new content fingerprint, the current timestamp, and
`last_summary` overwritten with the fallback verdict's text "Could not
parse response" — not with the fingerprint alone. -/
theorem check_topic_parse_fallback_cache_updated (env : CheckEnv)
    (topic : WatchTopic) (store : CacheStore) (txt : String)
    (hg : gatherInfo env topic ≠ [])
    (ho : env.oracle = .ok txt)
    (hn : findCandidateStr txt = none) :
    (check_topic env topic store).2 =
      saveTopicCache store topic.name
        { content_hash :=
            some (env.md5hex (String.intercalate "\n" (gatherInfo env topic))),
          last_checked := some env.now,
          last_summary := some (JValue.str "Could not parse response") } := by
  simp [check_topic, obtainResultData, hg, ho, hn]
  rfl

/-- Witness for C4's amended theorem at the concrete `noJsonEnv` over
the pre-populated `priorStore`. -/
theorem check_topic_parse_fallback_cache_updated_witness :
    (check_topic noJsonEnv plainTopic priorStore).2 =
      saveTopicCache priorStore plainTopic.name
        { content_hash :=
            some (noJsonEnv.md5hex
              (String.intercalate "\n" (gatherInfo noJsonEnv plainTopic))),
          last_checked := some noJsonEnv.now,
          last_summary := some (JValue.str "Could not parse response") } :=
  check_topic_parse_fallback_cache_updated noJsonEnv plainTopic priorStore
    "I cannot determine a verdict." (by decide) rfl (by decide)

/-- An environment in which nothing can be gathered: the search returns
no results and every fetch fails. -/
def nothingEnv : CheckEnv :=
  { searchWeb := fun _ => [],
    fetchUrl := fun _ => none,
    md5hex := fun _ => "abc123",
    oracle := .ok "\x7b\"has_significant_update\": false\x7d",
    jsonLoads := fun _ => .ok [("has_significant_update", JValue.bool false)],
    now := "2026-10-12T01:00:00" }

/-- C5: with an empty gather, `check_topic` returns the
"Could not gather any information" verdict, leaves the cache directory
untouched, and never consults the oracle (its result is identical under
every oracle behaviour). -/
theorem check_topic_empty_gather (env : CheckEnv) (topic : WatchTopic)
    (store : CacheStore)
    (hg : gatherInfo env topic = []) :
    (check_topic env topic store).1 =
      { topic_name := topic.name,
        has_update := JValue.bool false,
        summary := JValue.str "Could not gather any information",
        source_url := JValue.null,
        confidence := JValue.num 0 } ∧
    (check_topic env topic store).2 = store ∧
    (∀ o : Except String String,
      check_topic { env with oracle := o } topic store =
        check_topic env topic store) := by
  refine ⟨?_, ?_, ?_⟩
  · simp [check_topic, hg]
  · simp [check_topic, hg]
  · intro o
    have hg' : gatherInfo { env with oracle := o } topic = [] := hg
    simp [check_topic, hg, hg']

/-- Witness for C5 at a topic whose query list is nonempty but whose
search and fetches all come back empty. -/
theorem check_topic_empty_gather_witness :
    (check_topic nothingEnv plainTopic emptyStore).1 =
      { topic_name := plainTopic.name,
        has_update := JValue.bool false,
        summary := JValue.str "Could not gather any information",
        source_url := JValue.null,
        confidence := JValue.num 0 } ∧
    (check_topic nothingEnv plainTopic emptyStore).2 = emptyStore ∧
    (∀ o : Except String String,
      check_topic { nothingEnv with oracle := o } plainTopic emptyStore =
        check_topic nothingEnv plainTopic emptyStore) :=
  check_topic_empty_gather nothingEnv plainTopic emptyStore (by decide)

/-- A response that is exactly one JSON object whose confidence is 5. -/
def overConfCand : String :=
  "\x7b\"has_significant_update\": true, \"summary\": \"Big news\", \"confidence\": 5, \"source_url\": null\x7d"

/-- The dict `json.loads` produces on `overConfCand`. -/
def overConfKvs : Jobj :=
  [("has_significant_update", JValue.bool true),
   ("summary", JValue.str "Big news"),
   ("confidence", JValue.num 5),
   ("source_url", JValue.null)]

/-- An environment whose oracle reports confidence 5, outside [0, 1]. -/
def overConfEnv : CheckEnv :=
  { searchWeb := fun _ => [],
    fetchUrl := fun _ => some "page text",
    md5hex := fun _ => "abc999",
    oracle := .ok overConfCand,
    jsonLoads := fun s =>
      if s = overConfCand then .ok overConfKvs
      else .error "Expecting value: line 1 column 1 (char 0)",
    now := "2026-10-12T01:00:00" }

/-- C9 counterexample: a successfully parsed response whose confidence
number is 5 yields a verdict whose confidence is 5, outside the claimed
closed interval [0, 1]. -/
theorem check_topic_confidence_counterexample :
    (check_topic overConfEnv plainTopic emptyStore).1.confidence = JValue.num 5 ∧
      ¬((5 : ℚ) ≤ 1) := by
  constructor
  · decide
  · norm_num

/-- C9 amended: the verdict's confidence is exactly 0 on the
empty-gather, oracle-error and parse-fallback paths, and otherwise is
the parsed object's confidence value verbatim — no clamping to
[0, 1] is applied. -/
theorem check_topic_confidence_cases (env : CheckEnv) (topic : WatchTopic)
    (store : CacheStore) :
    (check_topic env topic store).1.confidence = JValue.num 0 ∨
    (∃ txt s kvs, env.oracle = .ok txt ∧ findCandidateStr txt = some s ∧
      env.jsonLoads s = .ok kvs ∧
      (check_topic env topic store).1.confidence =
        jget kvs "confidence" (JValue.num 0)) := by
  by_cases hg : gatherInfo env topic = []
  · left
    simp [check_topic, hg]
  · cases ho : env.oracle with
    | error e =>
      left
      simp [check_topic, obtainResultData, hg, ho]
    | ok txt =>
      cases hc : findCandidateStr txt with
      | none =>
        left
        simp [check_topic, obtainResultData, hg, ho, hc]
        decide
      | some s =>
        cases hj : env.jsonLoads s with
        | error e =>
          left
          simp [check_topic, obtainResultData, hg, ho, hc, hj]
        | ok kvs =>
          right
          exact ⟨txt, s, kvs, rfl, hc, hj, by
            simp [check_topic, obtainResultData, hg, ho, hc, hj]⟩

/-- Mapping both character lists through the sanitising function gives
the same result when the lists differ only at non-alphanumeric
positions. -/
theorem sanitize_map_eq_of_differOnlyNonAlnum :
    ∀ l1 l2 : List Char, differOnlyNonAlnum l1 l2 = true →
      l1.map (fun c => if isAlnumChar c then c else '_') =
        l2.map (fun c => if isAlnumChar c then c else '_')
  | [], [], _ => rfl
  | c :: cs, d :: ds, h => by
    simp only [differOnlyNonAlnum, Bool.and_eq_true, Bool.or_eq_true,
      decide_eq_true_eq, Bool.not_eq_true'] at h
    obtain ⟨hcd, hrest⟩ := h
    simp only [List.map]
    rw [sanitize_map_eq_of_differOnlyNonAlnum cs ds hrest]
    rcases hcd with h1 | ⟨h2, h3⟩
    · rw [h1]
    · rw [h2, h3]
      simp

/-- C10: two topic names that differ only in non-alphanumeric characters
sanitise to the same cache key, so a record saved under one name is read
back verbatim under the other, and after any `check_topic` call on a
topic with the first name, the record the second name's next check will
load as its own prior state is exactly the record stored for the
first. -/
theorem cache_key_collision (n1 n2 : String)
    (h : differOnlyNonAlnum n1.data n2.data = true) :
    sanitizeName n1 = sanitizeName n2 ∧
    (∀ store rec, loadTopicCache (saveTopicCache store n1 rec) n2 = rec) ∧
    (∀ (env : CheckEnv) (topic : WatchTopic) (store : CacheStore),
      topic.name = n1 →
        loadTopicCache (check_topic env topic store).2 n2 =
          loadTopicCache (check_topic env topic store).2 n1) := by
  have hs : sanitizeName n1 = sanitizeName n2 :=
    congrArg String.mk (sanitize_map_eq_of_differOnlyNonAlnum n1.data n2.data h)
  refine ⟨hs, ?_, ?_⟩
  · intro store rec
    unfold loadTopicCache saveTopicCache
    rw [← hs]
    simp
  · intro env topic store _
    unfold loadTopicCache
    rw [← hs]

/-- Witness for C10 at `"a b"` and `"a_b"`, whose shared cache key is
`"a_b"`. -/
theorem cache_key_collision_witness :
    sanitizeName "a b" = sanitizeName "a_b" ∧
    (∀ store rec, loadTopicCache (saveTopicCache store "a b" rec) "a_b" = rec) ∧
    (∀ (env : CheckEnv) (topic : WatchTopic) (store : CacheStore),
      topic.name = "a b" →
        loadTopicCache (check_topic env topic store).2 "a_b" =
          loadTopicCache (check_topic env topic store).2 "a b") :=
  cache_key_collision "a b" "a_b" (by decide)

/-- C6: the daemon's due test holds exactly when the topic has never
been checked, or the elapsed time since its recorded last check is at
least the maximum of its hour interval and the global minute floor. -/
theorem scheduler_due_iff (now : ℚ) (last_checks : String → Option ℚ)
    (topic : WatchTopic) (min_check_interval_minutes : Nat) :
    isDueTopic now last_checks topic min_check_interval_minutes = true ↔
      dueSpec now last_checks topic min_check_interval_minutes := by
  unfold isDueTopic isDue dueSpec effectiveInterval
  cases h : last_checks topic.name with
  | none => simp
  | some t => simp [ge_iff_le]

/-- The topic of the scheduler test case: `checkIntervalHours = 1`. -/
def hourlyTopic : WatchTopic :=
  { name := "T7",
    description := "d",
    search_queries := [],
    check_interval_hours := 1 }

/-- A last-check map that recorded `hourlyTopic` at time 0 (minutes). -/
def hourlyLastChecks : String → Option ℚ :=
  fun n => if n = "T7" then some 0 else none

/-- C7 counterexample: with `checkIntervalHours = 1` and a 30-minute
global floor, the effective interval is 60 minutes, so a topic last
checked 31 minutes before the tick is NOT due, contrary to the claim. -/
theorem scheduler_31min_counterexample :
    isDueTopic 31 hourlyLastChecks hourlyTopic 30 = false := by
  have h : hourlyLastChecks hourlyTopic.name = some 0 := rfl
  unfold isDueTopic isDue
  rw [h]
  simp only [decide_eq_false_iff_not, effectiveInterval, hourlyTopic]
  rw [max_le_iff]
  push_neg
  intro hle
  norm_num at hle

/-- C7 amended: with `checkIntervalHours = 1` and
`minCheckIntervalMinutes = 30`, a topic last checked 20 minutes before
the tick is not due, one checked 31 minutes before is not due either,
and one checked 60 minutes before is due (the effective interval is the
maximum, 60 minutes). -/
theorem scheduler_hourly_dueness :
    isDueTopic 20 hourlyLastChecks hourlyTopic 30 = false ∧
    isDueTopic 31 hourlyLastChecks hourlyTopic 30 = false ∧
    isDueTopic 60 hourlyLastChecks hourlyTopic 30 = true := by
  have h : hourlyLastChecks hourlyTopic.name = some 0 := rfl
  unfold isDueTopic isDue
  rw [h]
  refine ⟨?_, ?_, ?_⟩
  · simp only [decide_eq_false_iff_not, effectiveInterval, hourlyTopic]
    rw [max_le_iff]
    push_neg
    intro hle
    norm_num at hle
  · simp only [decide_eq_false_iff_not, effectiveInterval, hourlyTopic]
    rw [max_le_iff]
    push_neg
    intro hle
    norm_num at hle
  · simp only [decide_eq_true_eq, effectiveInterval, hourlyTopic]
    rw [max_le_iff]
    norm_num

/-- The AC fallback of `is_on_ac_power`: with no readable `online` file
at all, the machine is assumed to be on AC power. -/
theorem is_on_ac_power_of_all_none :
    ∀ l : List (Option String), (∀ x ∈ l, x = none) → is_on_ac_power l = true
  | [], _ => rfl
  | none :: rest, h => by
      simpa [is_on_ac_power] using
        is_on_ac_power_of_all_none rest (fun x hx => h x (List.mem_cons_of_mem _ hx))
  | some s :: rest, h => by
      exact absurd (h (some s) (List.mem_cons_self _ _)) (by simp)

/-- C8: the gate refuses with "On battery power" whenever AC power is
required but not detected, regardless of idle time; refuses with the
idle message whenever power is permitted but the detected idle time has
reached the threshold; permits with "OK" exactly when both conditions
pass; and fails open, treating an all-unreadable power signal as AC
power and two failed idle probes as zero idle time. -/
theorem gate_should_run_check (supplies : List (Option String))
    (idle : IdleEnv) (require_ac : Bool) (thr : Int) :
    (require_ac = true → is_on_ac_power supplies = false →
      should_run_check supplies idle require_ac thr =
        (false, "On battery power")) ∧
    (require_ac = false ∨ is_on_ac_power supplies = true →
      thr * 60 * 1000 ≤ get_idle_time_ms idle →
      should_run_check supplies idle require_ac thr =
        (false, "User idle for >" ++ toString thr ++ " minutes")) ∧
    (should_run_check supplies idle require_ac thr = (true, "OK") ↔
      ((require_ac = false ∨ is_on_ac_power supplies = true) ∧
        get_idle_time_ms idle < thr * 60 * 1000)) ∧
    ((∀ x ∈ supplies, x = none) → is_on_ac_power supplies = true) ∧
    (idle.qdbus = none → idle.xprintidle = none → get_idle_time_ms idle = 0) := by
  refine ⟨?_, ?_, ?_, is_on_ac_power_of_all_none supplies, ?_⟩
  · intro hr hac
    simp [should_run_check, hr, hac]
  · intro hpow hidle
    have hact : is_user_active idle thr = false := by
      simp [is_user_active, not_lt.mpr hidle]
    rcases hpow with h | h
    · simp [should_run_check, h, hact]
    · simp [should_run_check, h, hact]
  · cases hb : require_ac <;>
      cases hac : is_on_ac_power supplies <;>
        by_cases hi : get_idle_time_ms idle < thr * 60 * 1000 <;>
          simp [should_run_check, is_user_active, hb, hac, hi]
  · intro h1 h2
    simp [get_idle_time_ms, h1, h2]

/-- Witness for C8: with no power-supply files and both idle probes
failed except a 600-second qdbus reading, ten minutes of idle exceeds a
5-minute threshold and the gate refuses with the idle message. -/
theorem gate_should_run_check_witness :
    should_run_check [] { qdbus := some 600, xprintidle := none } true 5 =
      (false, "User idle for >" ++ toString (5 : Int) ++ " minutes") :=
  (gate_should_run_check [] { qdbus := some 600, xprintidle := none } true 5).2.1
    (Or.inr rfl) (by decide)
